import Mathlib

/-!
Verification of the language-detection and quality-scoring core of the
`cyrus` CLI (src/analyzers/language-detector.ts, the code analyzer's metric
helpers, and src/commands/quality.ts), by a shallow embedding in Lean.

The detector and the metric helpers are regex driven, so the embedding
starts with a small executable matcher for exactly the fragment of
JavaScript regular expressions occurring in the repository's pattern
tables.  JavaScript numbers are modelled by `ℚ` except where the code can
produce `NaN`/`Infinity`, where an explicit `JSReal` type over `ℝ` is used.
-/

namespace Cyrus

/-- A character class of a JavaScript regular expression: a set of
character ranges, possibly negated (`[^...]`). -/
structure CClass where
  neg : Bool
  ranges : List (Char × Char)
deriving DecidableEq

/-- Membership of a character in a character class. -/
def CClass.mem (k : CClass) (c : Char) : Bool :=
  (k.ranges.any (fun r => decide (r.1 ≤ c) && decide (c ≤ r.2))) != k.neg

/-- Abstract syntax for the fragment of JavaScript regular expressions used
by the repository's pattern tables: literal characters, character classes,
word-boundary assertions, the end anchor, concatenation, alternation and
the greedy star.  The `?` and `+` quantifiers are encoded below; the dot is
a (negated) character class. -/
inductive RE where
  | eps
  | lit (c : Char)
  | cls (k : CClass)
  | wb
  | eos
  | seq (a b : RE)
  | alt (a b : RE)
  | star (a : RE)
deriving DecidableEq

/-- Greedy `?` quantifier: prefer matching `a` over skipping it (JavaScript
tries the alternatives of `a|` left to right). -/
def RE.opt (a : RE) : RE := RE.alt a RE.eps

/-- The `+` quantifier, as `a` followed by `a*`. -/
def RE.plus (a : RE) : RE := RE.seq a (RE.star a)

/-- Concatenation of a list of regular expressions. -/
def cat (l : List RE) : RE := l.foldr RE.seq RE.eps

/-- A run of literal characters. -/
def lits (s : String) : RE := cat ((s.data).map RE.lit)

/-- Word characters for the `\b` assertion: `[A-Za-z0-9_]`. -/
def isWordChar (c : Char) : Bool :=
  (decide ('a' ≤ c) && decide (c ≤ 'z')) || (decide ('A' ≤ c) && decide (c ≤ 'Z')) ||
    (decide ('0' ≤ c) && decide (c ≤ '9')) || c == '_'

/-- Word-ness of an optional character (the edges of the input count as
non-word). -/
def wordAt : Option Char → Bool
  | none => false
  | some c => isWordChar c

/-- The `\b` assertion holds where the word-ness of the previous and the
next character differ. -/
def atBoundary (prev : Option Char) (s : List Char) : Bool :=
  wordAt prev != wordAt s.head?

/-- Backtracking matcher in continuation-passing style, mirroring the
anchored, greedy, backtracking behaviour of the JavaScript engine on the
fragment above.  `prev` is the character before the current position (for
`\b`); the continuation receives the updated `prev` and the remaining
input, and the first success in priority order wins.  `fuel` decreases on
every call; `matchFuel` below always supplies more fuel than the maximal
call depth, so the out-of-fuel branch is never taken (a star iteration
that consumes nothing ends the loop, as in JavaScript, so the call stack
is bounded by the pattern size times the input length). -/
def mat : ℕ → RE → Option Char → List Char →
    (Option Char → List Char → Option (List Char)) → Option (List Char)
  | 0, _, _, _, _ => none
  | fuel + 1, r, prev, s, k =>
    match r with
    | RE.eps => k prev s
    | RE.lit c =>
      match s with
      | [] => none
      | c2 :: s2 => if c2 = c then k (some c2) s2 else none
    | RE.cls kl =>
      match s with
      | [] => none
      | c2 :: s2 => if kl.mem c2 then k (some c2) s2 else none
    | RE.wb => if atBoundary prev s then k prev s else none
    | RE.eos => match s with | [] => k prev [] | _ :: _ => none
    | RE.seq a b => mat fuel a prev s (fun p2 s2 => mat fuel b p2 s2 k)
    | RE.alt a b => (mat fuel a prev s k).orElse (fun _ => mat fuel b prev s k)
    | RE.star a =>
      (mat fuel a prev s (fun p2 s2 =>
        if s2.length < s.length then mat fuel (RE.star a) p2 s2 k
        else none)).orElse (fun _ => k prev s)

/-- Size of a pattern, used to bound the matcher's call depth. -/
def reSize : RE → ℕ
  | RE.eps => 1
  | RE.lit _ => 1
  | RE.cls _ => 1
  | RE.wb => 1
  | RE.eos => 1
  | RE.seq a b => reSize a + reSize b + 1
  | RE.alt a b => reSize a + reSize b + 1
  | RE.star a => reSize a + 1

/-- Fuel that strictly dominates the matcher's call depth on `s`: the
stack interleaves structural descents (bounded by the pattern size) with
star iterations, each of which consumes at least one character. -/
def matchFuel (r : RE) (s : List Char) : ℕ := (s.length + 2) * (reSize r + 2)

/-- Leftmost match search: scan the start positions left to right and
return, for the first position admitting a match, the start index and the
length of the priority match (what JavaScript `exec` finds). -/
def firstMatch (r : RE) : Option Char → List Char → Option (ℕ × ℕ)
  | prev, s =>
    match mat (matchFuel r s) r prev s (fun _ s2 => some s2) with
    | some s2 => some (0, s.length - s2.length)
    | none =>
      match s with
      | [] => none
      | c :: s2 =>
        match firstMatch r (some c) s2 with
        | some (st, len) => some (st + 1, len)
        | none => none

/-- `pattern.test(content)`, and also whether a non-global
`content.match(pattern)` is non-null. -/
def reTest (r : RE) (s : String) : Bool := (firstMatch r none s.data).isSome

/-- Worker for `countMatches`: repeatedly find the leftmost match and
resume after its end, advancing one position past an empty match as
JavaScript's global `exec` loop does. -/
def countAux (r : RE) : ℕ → Option Char → List Char → ℕ
  | 0, _, _ => 0
  | fuel + 1, prev, s =>
    match firstMatch r prev s with
    | none => 0
    | some (st, len) =>
      let adv := st + max len 1
      1 + countAux r fuel (s.get? (adv - 1)) (s.drop adv)

/-- Number of elements of `content.match(new RegExp(p, "g"))` (zero when
null): the number of non-overlapping, leftmost matches. -/
def countMatches (r : RE) (s : String) : ℕ :=
  countAux r (s.length + 1) none s.data

example : reTest (lits ("abc")) ("xxabcx") = true := by decide

example : reTest (lits ("abc")) ("xxabx") = false := by decide

example : countMatches (lits ("ab")) ("abxabab") = 3 := by decide

example : countMatches (RE.seq RE.wb (lits ("if"))) ("if (xif) if") = 2 := by decide

/-! ## Character classes of the pattern tables -/

/-- The ranges of JavaScript's `\s`: ASCII whitespace, NBSP, and the
Unicode space separators, line separators and BOM. -/
def spaceRanges : List (Char × Char) :=
  [('\x09', '\x0d'), (' ', ' '), ('\xa0', '\xa0'),
   (Char.ofNat 0x1680, Char.ofNat 0x1680), (Char.ofNat 0x2000, Char.ofNat 0x200a),
   (Char.ofNat 0x2028, Char.ofNat 0x2029), (Char.ofNat 0x202f, Char.ofNat 0x202f),
   (Char.ofNat 0x205f, Char.ofNat 0x205f), (Char.ofNat 0x3000, Char.ofNat 0x3000),
   (Char.ofNat 0xfeff, Char.ofNat 0xfeff)]

/-- `\s`. -/
def spaceCls : CClass := ⟨false, spaceRanges⟩

/-- `\S`. -/
def nonSpaceCls : CClass := ⟨true, spaceRanges⟩

/-- The dot: any character except the line terminators. -/
def dotCls : CClass :=
  ⟨true, [('\n', '\n'), ('\r', '\r'), (Char.ofNat 0x2028, Char.ofNat 0x2029)]⟩

/-- `\w`. -/
def wordCls : CClass := ⟨false, [('a', 'z'), ('A', 'Z'), ('0', '9'), ('_', '_')]⟩

/-- `["']`. -/
def quoteCls : CClass := ⟨false, [('"', '"'), ('\x27', '\x27')]⟩

/-- `[\w.]`. -/
def wordDotCls : CClass := ⟨false, [('a', 'z'), ('A', 'Z'), ('0', '9'), ('_', '_'), ('.', '.')]⟩

/-- `[\w.*]`. -/
def wordDotStarCls : CClass :=
  ⟨false, [('a', 'z'), ('A', 'Z'), ('0', '9'), ('_', '_'), ('.', '.'), ('*', '*')]⟩

/-- `[\w\\]`. -/
def wordBslashCls : CClass :=
  ⟨false, [('a', 'z'), ('A', 'Z'), ('0', '9'), ('_', '_'), ('\x5c', '\x5c')]⟩

/-- `[^>]`. -/
def notGtCls : CClass := ⟨true, [('>', '>')]⟩

/-- The explicit whitespace class (no `\n`) of the python decorator
pattern: `[\t\v\f\r \xA0  -     　﻿]`. -/
def pyDecoSpaceCls : CClass :=
  ⟨false, [('\x09', '\x09'), ('\x0b', '\x0d'), (' ', ' '), ('\xa0', '\xa0'),
   (Char.ofNat 0x1680, Char.ofNat 0x1680), (Char.ofNat 0x2000, Char.ofNat 0x200a),
   (Char.ofNat 0x2028, Char.ofNat 0x2029), (Char.ofNat 0x202f, Char.ofNat 0x202f),
   (Char.ofNat 0x205f, Char.ofNat 0x205f), (Char.ofNat 0x3000, Char.ofNat 0x3000),
   (Char.ofNat 0xfeff, Char.ofNat 0xfeff)]⟩

/-- Short-hands used when transcribing the tables. -/
def sp : RE := RE.cls spaceCls

/-- `\s*`. -/
def sp0 : RE := RE.star sp

/-- `\s+`. -/
def sp1 : RE := RE.plus sp

/-- `\w`. -/
def wch : RE := RE.cls wordCls

/-- `\w+`. -/
def w1 : RE := RE.plus wch

/-- `.` (any character but a line terminator). -/
def dot : RE := RE.cls dotCls

/-- `.*`. -/
def anyStar : RE := RE.star dot

/-- A case-insensitive literal run (used for `/test|spec/i`; arguments are
lowercase ASCII letters, each matched as the two-element class of its
lower- and uppercase form). -/
def iLits (s : String) : RE :=
  cat ((s.data).map (fun c =>
    RE.cls ⟨false, [(c, c), (Char.ofNat (c.toNat - 32), Char.ofNat (c.toNat - 32))]⟩))

/-! ## The supported-language tag and the fixed tables
(`src/types`, `src/analyzers/language-detector.ts`) -/

/-- The `SupportedLanguage` union of `src/types`. -/
inductive SupportedLanguage where
  | javascript
  | typescript
  | python
  | java
  | go
  | rust
  | csharp
  | php
  | ruby
  | jsx
  | tsx
deriving DecidableEq

/-- `LANGUAGE_MAPPINGS`: normalized lowercase extension to language tag. -/
def languageMappings : List (String × SupportedLanguage) :=
  [(".js", SupportedLanguage.javascript), (".mjs", SupportedLanguage.javascript),
   (".cjs", SupportedLanguage.javascript), (".jsx", SupportedLanguage.jsx),
   (".ts", SupportedLanguage.typescript), (".tsx", SupportedLanguage.tsx),
   (".py", SupportedLanguage.python), (".pyw", SupportedLanguage.python),
   (".pyi", SupportedLanguage.python), (".java", SupportedLanguage.java),
   (".go", SupportedLanguage.go), (".rs", SupportedLanguage.rust),
   (".cs", SupportedLanguage.csharp), (".php", SupportedLanguage.php),
   (".rb", SupportedLanguage.ruby), (".rake", SupportedLanguage.ruby)]

/-- The python entry of `LANGUAGE_PATTERNS`, named so the scoring
theorems can refer to it directly. -/
def pythonLangPats : List (RE × ℕ) :=
  [(cat [lits ("def"), sp1, w1, sp0, RE.lit ('(')], 0),
     (cat [lits ("class"), sp1, w1], 0),
     (cat [lits ("import"), sp1, w1], 0),
     (cat [lits ("from"), sp1, w1, sp1, lits ("import")], 0),
     (cat [lits ("__init__"), sp0, RE.lit ('(')], 0),
     (cat [lits ("if"), sp1, lits ("__name__"), sp0, lits ("=="), sp0,
       RE.cls quoteCls, lits ("__main__"), RE.cls quoteCls], 0),
     (cat [RE.wb, lits ("self.")], 0),
     (cat [RE.lit ('@'), w1, RE.star (RE.cls pyDecoSpaceCls), RE.lit ('\n'), sp0, lits ("def")], 0),
     (cat [RE.wb, lits ("print"), sp0, RE.lit ('(')], 0),
     (cat [RE.wb, lits ("lambda"), sp1], 0),
     (cat [RE.wb, lits ("await"), sp1], 0),
     (cat [RE.wb, lits ("async"), sp1, lits ("def")], 0)]

/-- `LANGUAGE_PATTERNS`, in the insertion order of the object literal.
Every pattern is paired with its number of capturing groups, because the
scoring loop reads the length of a non-global `content.match(pattern)`
array, which is 1 (the full match) plus the number of capturing groups. -/
def languagePatterns : List (SupportedLanguage × List (RE × ℕ)) :=
  [(SupportedLanguage.javascript,
    [(cat [lits ("require"), sp0, RE.lit ('(')], 0),
     (lits ("module.exports"), 0),
     (cat [lits ("export"), sp1, RE.opt (cat [lits ("default"), sp1])], 1),
     (cat [lits ("import"), sp1, RE.opt (cat [RE.cls nonSpaceCls, anyStar]), lits ("from")], 0),
     (cat [lits ("console."), RE.alt (lits ("log")) (RE.alt (lits ("error")) (lits ("warn")))], 1),
     (cat [RE.wb, lits ("const"), sp1, w1, sp0, RE.lit ('=')], 0),
     (cat [RE.wb, lits ("let"), sp1, w1, sp0, RE.lit ('=')], 0),
     (cat [RE.wb, lits ("var"), sp1, w1, sp0, RE.lit ('=')], 0),
     (cat [lits ("=>"), sp0, RE.lit ('\x7b')], 0),
     (cat [RE.lit ('.'), lits ("then"), sp0, RE.lit ('(')], 0),
     (cat [lits ("async"), sp1, RE.alt (lits ("function")) (RE.lit ('('))], 1)]),
   (SupportedLanguage.typescript,
    [(cat [lits ("interface"), sp1, w1], 0),
     (cat [lits ("type"), sp1, w1, sp0, RE.lit ('=')], 0),
     (cat [RE.lit (':'), sp0, w1,
       RE.opt (RE.alt (lits ("[]")) (cat [RE.lit ('<'), anyStar, RE.lit ('>')]))], 1),
     (cat [lits ("as"), sp1, w1], 0),
     (cat [lits ("enum"), sp1, w1], 0),
     (cat [lits ("namespace"), sp1, w1], 0),
     (cat [lits ("declare"), sp1, RE.alt (lits ("module")) (lits ("namespace"))], 1),
     (cat [RE.lit ('<'), w1, RE.star (cat [RE.lit (','), sp0, w1]), RE.lit ('>')], 0),
     (cat [lits ("readonly"), sp1, w1], 0),
     (cat [lits ("public"), sp1, w1], 0),
     (cat [lits ("private"), sp1, w1], 0),
     (cat [lits ("protected"), sp1, w1], 0)]),
   (SupportedLanguage.python, pythonLangPats),
   (SupportedLanguage.java,
    [(cat [lits ("public"), sp1, lits ("class"), sp1, w1], 0),
     (cat [lits ("private"), sp1, w1], 0),
     (cat [lits ("public"), sp1, lits ("static"), sp1, lits ("void"), sp1, lits ("main")], 0),
     (cat [RE.lit ('@'), w1], 0),
     (cat [lits ("package"), sp1, RE.plus (RE.cls wordDotCls), RE.lit (';')], 0),
     (cat [lits ("import"), sp1, RE.plus (RE.cls wordDotStarCls), RE.lit (';')], 0),
     (cat [lits ("extends"), sp1, w1], 0),
     (cat [lits ("implements"), sp1, w1], 0),
     (cat [RE.wb, lits ("new"), sp1, w1, sp0, RE.lit ('(')], 0),
     (lits ("System.out.print"), 0)]),
   (SupportedLanguage.go,
    [(cat [lits ("package"), sp1, w1], 0),
     (cat [lits ("func"), sp1, w1, sp0, RE.lit ('(')], 0),
     (cat [lits ("import"), sp1, RE.lit ('(')], 0),
     (cat [lits ("type"), sp1, w1, sp1, lits ("struct")], 0),
     (cat [lits ("var"), sp1, w1, sp1, w1], 0),
     (cat [RE.lit (':'), sp0, RE.lit ('='), sp0], 0),
     (cat [lits ("defer"), sp1], 0),
     (cat [lits ("go"), sp1, w1, RE.lit ('(')], 0),
     (cat [lits ("chan"), sp1, w1], 0),
     (cat [lits ("range"), sp1, w1], 0)]),
   (SupportedLanguage.rust,
    [(cat [lits ("fn"), sp1, w1, sp0, RE.lit ('(')], 0),
     (cat [lits ("let"), sp1, lits ("mut"), sp1], 0),
     (cat [lits ("use"), sp1, w1, lits ("::")], 0),
     (cat [lits ("struct"), sp1, w1], 0),
     (cat [lits ("impl"), sp1, w1], 0),
     (cat [lits ("pub"), sp1, RE.alt (lits ("fn")) (RE.alt (lits ("struct")) (lits ("enum")))], 1),
     (cat [lits ("match"), sp1, w1], 0),
     (RE.alt (lits ("Some(")) (lits ("None")), 0),
     (RE.alt (lits ("Ok(")) (lits ("Err(")), 0),
     (cat [RE.wb, lits ("macro_rules!")], 0)]),
   (SupportedLanguage.csharp,
    [(cat [lits ("using"), sp1, RE.plus (RE.cls wordDotCls), RE.lit (';')], 0),
     (cat [lits ("namespace"), sp1, RE.plus (RE.cls wordDotCls)], 0),
     (cat [lits ("class"), sp1, w1], 0),
     (cat [lits ("public"), sp1, RE.alt (lits ("class")) (RE.alt (lits ("interface")) (lits ("enum")))], 1),
     (cat [lits ("private"), sp1, w1], 0),
     (cat [lits ("static"), sp1, lits ("void"), sp1, lits ("Main")], 0),
     (cat [RE.lit ('['), w1, RE.lit (']')], 0),
     (cat [lits ("async"), sp1, lits ("Task")], 0),
     (cat [lits ("=>"), sp0, RE.lit ('\x7b')], 0),
     (cat [lits ("var"), sp1, w1, sp0, RE.lit ('=')], 0)]),
   (SupportedLanguage.php,
    [(lits ("<?php"), 0),
     (cat [RE.lit ('$'), w1, sp0, RE.lit ('=')], 0),
     (cat [lits ("function"), sp1, w1, sp0, RE.lit ('(')], 0),
     (cat [lits ("class"), sp1, w1], 0),
     (cat [lits ("namespace"), sp1, RE.plus (RE.cls wordBslashCls), RE.lit (';')], 0),
     (cat [lits ("use"), sp1, RE.plus (RE.cls wordBslashCls), RE.lit (';')], 0),
     (cat [lits ("public"), sp1, lits ("function")], 0),
     (cat [lits ("private"), sp1, lits ("function")], 0),
     (cat [lits ("->"), w1, RE.lit ('(')], 0),
     (cat [lits ("::"), w1, RE.lit ('(')], 0)]),
   (SupportedLanguage.ruby,
    [(cat [lits ("def"), sp1, w1], 0),
     (cat [lits ("class"), sp1, w1], 0),
     (cat [lits ("module"), sp1, w1], 0),
     (cat [lits ("require"), sp1, RE.cls quoteCls], 0),
     (cat [lits ("attr_"), RE.alt (lits ("reader")) (RE.alt (lits ("writer")) (lits ("accessor")))], 1),
     (cat [RE.wb, lits ("do"), sp0, RE.lit ('|')], 0),
     (cat [RE.wb, lits ("end"), RE.wb], 0),
     (cat [RE.lit ('|'), w1, RE.lit ('|')], 0),
     (cat [RE.lit ('@'), w1, sp0, RE.lit ('=')], 0),
     (cat [lits ("puts"), sp1], 0)]),
   (SupportedLanguage.jsx,
    [(cat [RE.lit ('<'), wch, RE.star (RE.cls notGtCls), RE.lit ('>')], 0),
     (cat [lits ("</"), w1, RE.lit ('>')], 0),
     (lits ("className="), 0),
     (lits ("onClick="), 0),
     (lits ("useState("), 0),
     (lits ("useEffect("), 0),
     (cat [lits ("return"), sp0, RE.lit ('(')], 0),
     (lits (".jsx"), 0)]),
   (SupportedLanguage.tsx,
    [(cat [RE.lit ('<'), wch, RE.star (RE.cls notGtCls), RE.lit ('>')], 0),
     (cat [lits ("</"), w1, RE.lit ('>')], 0),
     (cat [lits ("interface"), sp1, w1, lits ("Props")], 0),
     (cat [RE.lit (':'), sp0, lits ("React.FC")], 0),
     (cat [lits ("useState<"), w1, lits (">(")], 0),
     (lits ("className="), 0),
     (lits (".tsx"), 0)])]

/-- `FRAMEWORK_PATTERNS`, in insertion order.  Only `pattern.test` is used
on these, so capture counts are irrelevant. -/
def frameworkPatterns : List (String × List RE) :=
  [("react",
    [cat [lits ("import"), anyStar, lits ("from"), sp0, RE.cls quoteCls,
       lits ("react"), RE.cls quoteCls],
     lits ("React."), lits ("useState("), lits ("useEffect(")]),
   ("vue",
    [cat [lits ("import"), anyStar, lits ("from"), sp0, RE.cls quoteCls,
       lits ("vue"), RE.cls quoteCls],
     lits ("Vue."), lits ("<template>"), lits ("v-model")]),
   ("angular",
    [lits ("@Component"), lits ("@Injectable"),
     cat [lits ("import"), anyStar, lits ("from"), sp0, RE.cls quoteCls, lits ("@angular")],
     lits ("ngOnInit")]),
   ("express",
    [lits ("express()"),
     cat [lits ("app."),
       RE.alt (lits ("get")) (RE.alt (lits ("post")) (RE.alt (lits ("put")) (lits ("delete"))))],
     cat [lits ("import"), anyStar, lits ("express")]]),
   ("nextjs",
    [lits ("next/"), lits ("getServerSideProps"), lits ("getStaticProps"),
     cat [lits ("_app."), RE.alt (lits ("js")) (lits ("tsx"))]]),
   ("nestjs",
    [lits ("@Module"), lits ("@Controller"), lits ("@Injectable"),
     cat [lits ("import"), anyStar, lits ("@nestjs")]]),
   ("django",
    [cat [lits ("from"), sp1, lits ("django")], lits ("models.Model"),
     lits ("views.py"), lits ("urls.py")]),
   ("flask",
    [cat [lits ("from"), sp1, lits ("flask")], lits ("Flask(__name__)"),
     lits ("@app.route")]),
   ("fastapi",
    [cat [lits ("from"), sp1, lits ("fastapi")], lits ("FastAPI("),
     cat [lits ("@app."), RE.alt (lits ("get")) (lits ("post"))]]),
   ("pytest",
    [cat [lits ("import"), sp1, lits ("pytest")], lits ("@pytest."),
     cat [lits ("def"), sp1, lits ("test_")]]),
   ("spring",
    [lits ("@SpringBootApplication"), lits ("@RestController"), lits ("@Service"),
     cat [lits ("import"), sp1, lits ("org.springframework")]]),
   ("junit",
    [lits ("@Test"), cat [lits ("import"), sp1, lits ("org.junit")],
     lits ("@Before"), lits ("@After")]),
   ("rails",
    [cat [lits ("class"), sp1, w1, sp0, RE.lit ('<'), sp0, lits ("ApplicationController")],
     lits ("ActiveRecord::Base"), lits ("Rails.application")])]

/-- The test-framework name list of the categorisation step. -/
def testFrameworkNames : List String :=
  [("pytest"), ("junit"), ("jest"), ("mocha"), ("vitest")]

/-- `getLanguageFrameworks`. -/
def getLanguageFrameworks : SupportedLanguage → List String
  | SupportedLanguage.javascript =>
    [("react"), ("vue"), ("angular"), ("express"), ("nextjs"), ("jest"), ("mocha"), ("vitest")]
  | SupportedLanguage.typescript =>
    [("react"), ("vue"), ("angular"), ("express"), ("nextjs"), ("nestjs"), ("jest"), ("vitest")]
  | SupportedLanguage.jsx => [("react"), ("nextjs"), ("jest")]
  | SupportedLanguage.tsx => [("react"), ("nextjs"), ("jest")]
  | SupportedLanguage.python => [("django"), ("flask"), ("fastapi"), ("pytest")]
  | SupportedLanguage.java => [("spring"), ("junit")]
  | SupportedLanguage.go => []
  | SupportedLanguage.rust => []
  | SupportedLanguage.csharp => []
  | SupportedLanguage.php => []
  | SupportedLanguage.ruby => [("rails")]

/-- `/test|spec/i`. -/
def testSpecNameRE : RE := RE.alt (iLits ("test")) (iLits ("spec"))

/-- `/\.spec\.(js|ts|jsx|tsx)$/`. -/
def specFileRE : RE :=
  cat [lits (".spec."),
    RE.alt (lits ("js")) (RE.alt (lits ("ts")) (RE.alt (lits ("jsx")) (lits ("tsx")))), RE.eos]

/-- `/test_.*\.py$/`. -/
def pyTestFileRE : RE := cat [lits ("test_"), anyStar, lits (".py"), RE.eos]

/-! ## Path helpers (`path.basename`, `path.extname`, `toLowerCase`) -/

/-- `path.basename`: the part of a path after its last separator. -/
def basename (p : String) : String :=
  String.mk ((p.data).foldl (fun acc c => if c = '/' then [] else acc ++ [c]) [])

/-- `path.extname`: the suffix of the basename from its last dot, empty
when the only dot is the leading character (dotfiles have no extension).
Node additionally treats a basename consisting solely of dots as having no
extension; those names carry no supported extension either way. -/
def extname (p : String) : String :=
  let b := (basename p).data
  let idx := (List.range b.length).foldl
    (fun acc i => if b.get? i = some '.' ∧ 0 < i then some i else acc) none
  match idx with
  | none => ""
  | some i => String.mk (b.drop i)

/-- ASCII `toLowerCase`, enough for extension strings. -/
def toLowerAscii (s : String) : String :=
  String.mk ((s.data).map (fun c =>
    if 'A' ≤ c ∧ c ≤ 'Z' then Char.ofNat (c.toNat + 32) else c))

/-- Extension lookup in `LANGUAGE_MAPPINGS`. -/
def lookupExt (e : String) : Option SupportedLanguage :=
  ((languageMappings.find? (fun m => m.1 = e))).map (fun m => m.2)

/-- `LanguageDetector.isSupported`. -/
def isSupported (filePath : String) : Bool :=
  (lookupExt (toLowerAscii (extname filePath))).isSome

/-! ## `detectByContent` and `detectLanguage`
(`src/analyzers/language-detector.ts`, lines 260-426) -/

/-- The result record; `detectLanguage` populates exactly these four
fields of `LanguageDetectionResult`. -/
structure LanguageDetectionResult where
  language : Option SupportedLanguage
  confidence : ℚ
  frameworks : List String
  testFrameworks : List String
deriving DecidableEq

/-- The `matchCount` of the scoring loop: the code reads
`(content.match(pattern) || []).length` on a non-global pattern, which is
`1 +` (number of capturing groups) when the pattern matches at all, and
`0` otherwise. -/
def patMatchLen (p : RE × ℕ) (content : String) : ℕ :=
  if reTest p.1 content then p.2 + 1 else 0

/-- `Math.min(matchCount / 10, 1)`, added only when `matchCount > 0`. -/
def contribOfLen (mc : ℕ) : ℚ :=
  if 0 < mc then min ((mc : ℚ) / 10) 1 else 0

/-- One pattern's contribution to a language's `matches` accumulator. -/
def patContribution (p : RE × ℕ) (content : String) : ℚ :=
  contribOfLen (patMatchLen p content)

/-- A language's raw score: summed contributions divided by the number of
patterns for that language. -/
def languageScore (pats : List (RE × ℕ)) (content : String) : ℚ :=
  ((pats.map (fun p => patContribution p content)).sum) / (pats.length : ℚ)

/-- The `scores` map: languages in table order whose raw score is positive. -/
def contentScores (content : String) : List (SupportedLanguage × ℚ) :=
  languagePatterns.filterMap (fun lp =>
    let score := languageScore lp.2 content
    if 0 < score then some (lp.1, score) else none)

/-- The maximum-score fold of `detectByContent`: strict improvement only,
so the first language in iteration order wins ties. -/
def maxScorePair (scores : List (SupportedLanguage × ℚ)) : ℚ × Option SupportedLanguage :=
  scores.foldl (fun acc ls => if acc.1 < ls.2 then (ls.2, some ls.1) else acc) (0, none)

/-- `Set.add`: append if absent (JavaScript sets preserve insertion
order). -/
def addToSet (x : String) (l : List String) : List String :=
  if x ∈ l then l else l ++ [x]

/-- The detected-framework set: frameworks one of whose patterns tests
positive (the loop breaks at the first matching pattern, so only
existence matters). -/
def detectedFrameworksOf (content : String) : List String :=
  frameworkPatterns.foldl
    (fun acc fp => if fp.2.any (fun r => reTest r content) then addToSet fp.1 acc else acc) []

/-- The test-framework subset collected in the same loop. -/
def contentTestFrameworks (content : String) : List String :=
  (detectedFrameworksOf content).filter (fun f => f ∈ testFrameworkNames)

/-- The special file-name step: names matching `/test|spec/i` may add
`jest` (for `.spec.{js,ts,jsx,tsx}` names) or `pytest` (for `test_*.py`
names) to both sets. -/
def fileNameFrameworkAdds (fileName : String) (fw tf : List String) :
    List String × List String :=
  if reTest testSpecNameRE fileName then
    if reTest specFileRE fileName then (addToSet ("jest") fw, addToSet ("jest") tf)
    else if reTest pyTestFileRE fileName then (addToSet ("pytest") fw, addToSet ("pytest") tf)
    else (fw, tf)
  else (fw, tf)

/-- `detectByContent`. -/
def detectByContent (content : String) (filePath : String) : LanguageDetectionResult :=
  let fwtf := fileNameFrameworkAdds (basename filePath)
    (detectedFrameworksOf content) (contentTestFrameworks content)
  let ms := maxScorePair (contentScores content)
  let confidence : ℚ :=
    match ms.2 with
    | none => 0
    | some detected =>
      let c0 := min (ms.1 * (8 / 10)) (95 / 100)
      if (fwtf.1.filter (fun f => f ∈ getLanguageFrameworks detected)) ≠ [] then
        min (c0 + 1 / 10) (99 / 100)
      else c0
  { language := if 3 / 10 < confidence then ms.2 else none
    confidence := confidence
    frameworks := fwtf.1
    testFrameworks := fwtf.2 }

/-- JavaScript truthiness of the optional `content` argument (absent or
empty means falsy). -/
def contentTruthy : Option String → Bool
  | none => false
  | some s => s ≠ ("")

/-- `detectLanguage`: extension lookup at confidence 0.8, then content
analysis when the extension failed or content was supplied; agreement
boosts confidence by 0.2 capped at 1, disagreement leaves the extension
result; frameworks always come from the content pass when it runs. -/
def detectLanguage (filePath : String) (content : Option String) : LanguageDetectionResult :=
  let extLang := lookupExt (toLowerAscii (extname filePath))
  let base : LanguageDetectionResult :=
    { language := extLang, confidence := if extLang.isSome then 8 / 10 else 0,
      frameworks := [], testFrameworks := [] }
  if extLang.isNone || contentTruthy content then
    let cr := detectByContent (content.getD ("")) filePath
    let base2 :=
      match cr.language with
      | none => base
      | some cl =>
        match extLang with
        | none => { base with language := some cl, confidence := cr.confidence }
        | some el =>
          if el = cl then { base with confidence := min 1 (base.confidence + 2 / 10) }
          else base
    { base2 with frameworks := cr.frameworks, testFrameworks := cr.testFrameworks }
  else base

/-! ## Metric helpers of the code analyzer
(`CodeAnalyzer.calculateComplexity`, `calculateMaintainabilityIndex`,
`calculateTechnicalDebt`) -/

/-- The seventh entry of the javascript/typescript/java complexity tables.
The source writes the regex literal `/\b\?\.*:\s*/` with doubled
backslashes, so its meta-characters are escaped away: the pattern matches
a literal `\`, `b`, an optional `\`, a `\`, any characters, `:`, a `\`,
and a run of the letter `s`. -/
def ternaryComplexityRE : RE :=
  cat [RE.lit ('\x5c'), RE.lit ('b'), RE.opt (RE.lit ('\x5c')), RE.lit ('\x5c'),
    anyStar, RE.lit (':'), RE.lit ('\x5c'), RE.star (RE.lit ('s'))]

/-- The javascript complexity patterns (the typescript and java table
entries list the same seven regexes).  The source's regex literals are
double-escaped (`/\b if\b/` is written `/\\bif\\b/`), so the first six
match the six-character literal texts `\bif\b`, `\belse\b`, ... rather
than the keywords. -/
def jsComplexityPatterns : List RE :=
  [lits ("\\bif\\b"), lits ("\\belse\\b"), lits ("\\bfor\\b"), lits ("\\bwhile\\b"),
   lits ("\\bswitch\\b"), lits ("\\bcatch\\b"), ternaryComplexityRE]

/-- The python complexity patterns, double-escaped in the source in the
same way. -/
def pyComplexityPatterns : List RE :=
  [lits ("\\bif\\b"), lits ("\\belif\\b"), lits ("\\belse\\b"), lits ("\\bfor\\b"),
   lits ("\\bwhile\\b"), lits ("\\btry\\b"), lits ("\\bexcept\\b")]

/-- The `complexityPatterns` object (keys javascript, typescript, python,
java; other languages fall back to the javascript list). -/
def complexityPatternsTable : List (SupportedLanguage × List RE) :=
  [(SupportedLanguage.javascript, jsComplexityPatterns),
   (SupportedLanguage.typescript, jsComplexityPatterns),
   (SupportedLanguage.python, pyComplexityPatterns),
   (SupportedLanguage.java, jsComplexityPatterns)]

/-- `calculateComplexity`: base 1, plus the number of global matches of
each pattern of the language's list (`content.match(new
RegExp(pattern.source, "g"))`). -/
def calculateComplexity (content : String) (language : SupportedLanguage) : ℕ :=
  let patterns :=
    (((complexityPatternsTable.find? (fun e => e.1 = language)).map (fun e => e.2))).getD
      jsComplexityPatterns
  1 + ((patterns.map (fun p => countMatches p content)).sum)

/-- `calculateTechnicalDebt`: the complexity term `(complexity - 10) * 5`
is not floored on its own; only the size term and the final sum are. -/
def calculateTechnicalDebt (complexity loc : ℕ) : ℚ :=
  let complexityDebt : ℚ := ((complexity : ℚ) - 10) * 5
  let sizeDebt : ℚ := max 0 ((loc : ℚ) - 200) * (1 / 10)
  max 0 (complexityDebt + sizeDebt)

/-- JavaScript numbers where `NaN` and the infinities can arise
(`calculateMaintainabilityIndex` divides by and takes the logarithm of a
possibly-zero line count). -/
inductive JSReal where
  | nan
  | posInf
  | negInf
  | fin (x : ℝ)

/-- Division of two non-negative integers as JavaScript numbers:
`0/0 = NaN`, `x/0 = Infinity` for positive `x`. -/
noncomputable def jsDivNat (a b : ℕ) : JSReal :=
  if b = 0 then (if a = 0 then JSReal.nan else JSReal.posInf)
  else JSReal.fin ((a : ℝ) / (b : ℝ))

/-- `Math.log` on a non-negative integer: `log 0 = -Infinity`. -/
noncomputable def jsLogNat (n : ℕ) : JSReal :=
  if n = 0 then JSReal.negInf else JSReal.fin (Real.log n)

/-- Multiplication by a positive constant (the call sites use the literal
constants 5 and 10, so the sign analysis of the general JavaScript
multiplication collapses to this). -/
noncomputable def JSReal.mulPos : JSReal → ℝ → JSReal
  | JSReal.nan, _ => JSReal.nan
  | JSReal.posInf, _ => JSReal.posInf
  | JSReal.negInf, _ => JSReal.negInf
  | JSReal.fin x, c => JSReal.fin (x * c)

/-- JavaScript addition. -/
noncomputable def JSReal.add : JSReal → JSReal → JSReal
  | JSReal.nan, _ => JSReal.nan
  | _, JSReal.nan => JSReal.nan
  | JSReal.posInf, JSReal.negInf => JSReal.nan
  | JSReal.negInf, JSReal.posInf => JSReal.nan
  | JSReal.posInf, _ => JSReal.posInf
  | _, JSReal.posInf => JSReal.posInf
  | JSReal.negInf, _ => JSReal.negInf
  | _, JSReal.negInf => JSReal.negInf
  | JSReal.fin x, JSReal.fin y => JSReal.fin (x + y)

/-- JavaScript subtraction. -/
noncomputable def JSReal.sub : JSReal → JSReal → JSReal
  | JSReal.nan, _ => JSReal.nan
  | _, JSReal.nan => JSReal.nan
  | JSReal.posInf, JSReal.posInf => JSReal.nan
  | JSReal.negInf, JSReal.negInf => JSReal.nan
  | JSReal.posInf, _ => JSReal.posInf
  | _, JSReal.posInf => JSReal.negInf
  | JSReal.negInf, _ => JSReal.negInf
  | _, JSReal.negInf => JSReal.posInf
  | JSReal.fin x, JSReal.fin y => JSReal.fin (x - y)

/-- `Math.min` of two values: `NaN` wins, otherwise the usual order with
infinities. -/
noncomputable def JSReal.jsMin : JSReal → JSReal → JSReal
  | JSReal.nan, _ => JSReal.nan
  | _, JSReal.nan => JSReal.nan
  | JSReal.negInf, _ => JSReal.negInf
  | _, JSReal.negInf => JSReal.negInf
  | JSReal.posInf, b => b
  | a, JSReal.posInf => a
  | JSReal.fin x, JSReal.fin y => JSReal.fin (min x y)

/-- `Math.max` of two values. -/
noncomputable def JSReal.jsMax : JSReal → JSReal → JSReal
  | JSReal.nan, _ => JSReal.nan
  | _, JSReal.nan => JSReal.nan
  | JSReal.posInf, _ => JSReal.posInf
  | _, JSReal.posInf => JSReal.posInf
  | JSReal.negInf, b => b
  | a, JSReal.negInf => a
  | JSReal.fin x, JSReal.fin y => JSReal.fin (max x y)

/-- `calculateMaintainabilityIndex(loc, complexity, commentLines)`:
`clamp(100 - 2*complexity - 5*ln(loc) + 10*(commentLines/loc), 0, 100)`
in JavaScript arithmetic (so `loc = 0` produces `NaN`). -/
noncomputable def calculateMaintainabilityIndex (loc complexity commentLines : ℕ) : JSReal :=
  let commentRatio := jsDivNat commentLines loc
  let complexityPenalty : JSReal := JSReal.fin ((complexity : ℝ) * 2)
  let sizePenalty := (jsLogNat loc).mulPos 5
  let index :=
    (((JSReal.fin 100).sub complexityPenalty).sub sizePenalty).add (commentRatio.mulPos 10)
  (JSReal.fin 0).jsMax ((JSReal.fin 100).jsMin index)

/-! ## The quality scoring engine (`src/commands/quality.ts`) -/

/-- The fields of a `CodeMetrics` object that the scoring engine reads.
`maintainabilityIndex` is modelled as a rational; the `NaN` it can carry
for an empty file (see `calculateMaintainabilityIndex`) compares false
against every bound in JavaScript and so never triggers a maintainability
penalty, just as no rational below 50 or 70 does not. -/
structure CodeMetricsQ where
  complexity : ℕ
  maintainabilityIndex : ℚ
  linesOfCode : ℕ
deriving DecidableEq

/-- A `FileQuality` entry. -/
structure FileQuality where
  path : String
  score : ℚ
  issues : ℕ
  metrics : Option CodeMetricsQ
deriving DecidableEq

/-- `calculateFileScore`: 100, minus 5 per diagnostic, minus the
complexity band (20 over 20, else 10 over 10), minus the maintainability
band (15 under 50, else 5 under 70), clamped to [0, 100]. -/
def calculateFileScore (diagCount : ℕ) (metrics : Option CodeMetricsQ) : ℚ :=
  let score : ℚ := 100 - (diagCount : ℚ) * 5
  let score :=
    match metrics with
    | none => score
    | some m =>
      let score := if 20 < m.complexity then score - 20
        else if 10 < m.complexity then score - 10 else score
      if m.maintainabilityIndex < 50 then score - 15
      else if m.maintainabilityIndex < 70 then score - 5 else score
  max 0 (min 100 score)

/-- `calculateMaintainability`: banding on the average complexity of the
analysed files (`f.metrics?.complexity || 0`).  On an empty list the
JavaScript average is `0/0 = NaN` and every band test fails; the total
rational division returns 0 here instead, a corner none of the theorems
below relies on. -/
def calculateMaintainability (files : List FileQuality) : ℚ :=
  let avgComplexity :=
    ((files.map (fun f => match f.metrics with | some m => (m.complexity : ℚ) | none => 0)).sum) /
      (files.length : ℚ)
  if avgComplexity ≤ 5 then 100
  else if avgComplexity ≤ 10 then 80
  else if avgComplexity ≤ 20 then 60
  else 40

/-- `calculateComplexityScore`: banding on the complexity-per-line ratio,
with an explicit guard for zero total lines. -/
def calculateComplexityScore (totalComplexity totalLines : ℕ) : ℚ :=
  if totalLines = 0 then 100
  else
    let complexityRatio := (totalComplexity : ℚ) / (totalLines : ℚ)
    if complexityRatio ≤ 1 / 10 then 100
    else if complexityRatio ≤ 2 / 10 then 80
    else if complexityRatio ≤ 3 / 10 then 60
    else 40

/-- `Math.round` on a rational: floor of `x + 1/2` (ties go up, as in
JavaScript). -/
def jsRound (x : ℚ) : ℤ := ⌊x + 1 / 2⌋

/-- The `overallScore` expression of `analyzeQuality` (lines 201-209). -/
def overallScoreOf (averageScore codeHealth maintainability complexity testCoverage
    documentation security : ℚ) : ℤ :=
  jsRound (averageScore * (3 / 10) + codeHealth * (2 / 10) + maintainability * (15 / 100) +
    complexity * (15 / 100) + testCoverage * (1 / 10) + documentation * (5 / 100) +
    security * (5 / 100))

/-- The report record built by `analyzeQuality`. -/
structure QualityMetrics where
  overallScore : ℤ
  codeHealth : ℚ
  maintainability : ℚ
  complexity : ℚ
  testCoverage : ℚ
  documentation : ℚ
  security : ℚ
  recommendations : List String
  files : List FileQuality
deriving DecidableEq

/-- One discovered file as the analysis loop sees it: its path, and
either `none` when `analyzeFile` threw (the loop skips such files) or the
number of diagnostics together with the optional metrics object. -/
structure FileAnalysis where
  path : String
  result : Option (ℕ × Option CodeMetricsQ)
deriving DecidableEq

/-- The computational core of `analyzeQuality` (lines 121-218), over the
discovered file list.  The file-system- and AI-derived sub-scores
(`testCoverage`, `documentation`, `security`) and the recommendation list
are taken as inputs because they are produced by I/O helpers outside the
scoring arithmetic.  When the discovered list is empty the function
throws (`AnalysisError("No supported files found for analysis")`) before
any score is computed; `codeHealth`'s denominator `files.length` is
therefore always positive when reached.  On an empty analysed sublist the
JavaScript `averageScore` is `NaN`; the total rational division yields 0,
a corner no theorem below relies on. -/
def analyzeQualityCore (files : List FileAnalysis) (maxFiles : ℕ)
    (testCoverage documentation security : ℚ) (recommendations : List String) :
    Except String QualityMetrics :=
  if files.length = 0 then Except.error ("No supported files found for analysis")
  else
    let filesToAnalyze := files.take maxFiles
    let fileQualities := filesToAnalyze.filterMap (fun f =>
      f.result.map (fun r =>
        { path := f.path, score := calculateFileScore r.1 r.2, issues := r.1,
          metrics := r.2 : FileQuality }))
    let totalLines := ((fileQualities.filterMap (fun q => q.metrics.map
      (fun m => m.linesOfCode)))).sum
    let totalComplexity := ((fileQualities.filterMap (fun q => q.metrics.map
      (fun m => m.complexity)))).sum
    let totalIssues := ((fileQualities.map (fun q => q.issues))).sum
    let averageScore := ((fileQualities.map (fun q => q.score)).sum) / (fileQualities.length : ℚ)
    let codeHealth : ℚ := max 0 (100 - ((totalIssues : ℚ) / (files.length : ℚ)) * 10)
    let maintainability := calculateMaintainability fileQualities
    let complexity := calculateComplexityScore totalComplexity totalLines
    Except.ok
      { overallScore := overallScoreOf averageScore codeHealth maintainability complexity
          testCoverage documentation security
        codeHealth := codeHealth
        maintainability := maintainability
        complexity := complexity
        testCoverage := testCoverage
        documentation := documentation
        security := security
        recommendations := recommendations
        files := fileQualities.mergeSort (fun a b => a.score ≤ b.score) }

/-! ## `detectProjectLanguages` (`src/analyzers/language-detector.ts`,
lines 437-545) -/

/-- A file-system tree for the recursive scan.  A file's `content` is
`none` when reading it fails; a directory with `readable = false` is one
whose `fs.readdir` fails. -/
inductive FSEntry where
  | file (name : String) (content : Option String)
  | dir (name : String) (readable : Bool) (entries : List FSEntry)

/-- The directory denylist of the scan. -/
def skipDirs : List String :=
  [("node_modules"), (".git"), ("dist"), ("build"), ("target"), ("__pycache__")]

/-- `path.join` as used on scan paths. -/
def pathJoin (a b : String) : String := a ++ ("/") ++ b

/-- The mutable state closed over by `scanDirectory`. -/
structure ScanState where
  languageCounts : List (SupportedLanguage × ℕ)
  allFrameworks : List String
  allTestFrameworks : List String
  totalFiles : ℕ
deriving DecidableEq

/-- `Map.set(k, get(k) + 1)`: update in place, or append a new key
(JavaScript maps preserve insertion order). -/
def bumpLang (l : SupportedLanguage) : List (SupportedLanguage × ℕ) →
    List (SupportedLanguage × ℕ)
  | [] => [(l, 1)]
  | e :: rest => if e.1 = l then (e.1, e.2 + 1) :: rest else e :: bumpLang l rest

/-- Add every element of a list to an insertion-ordered set. -/
def addAllToSet (xs : List String) (s : List String) : List String :=
  xs.foldl (fun acc x => addToSet x acc) s

/-- One scanned supported file's effect on the state: it is always
counted, and when its content could be read and a language detected the
language count and the framework sets are updated. -/
def applyOutcome (st : ScanState) :
    Option (SupportedLanguage × List String × List String) → ScanState
  | none => { st with totalFiles := st.totalFiles + 1 }
  | some (l, fw, tf) =>
    { languageCounts := bumpLang l st.languageCounts
      allFrameworks := addAllToSet fw st.allFrameworks
      allTestFrameworks := addAllToSet tf st.allTestFrameworks
      totalFiles := st.totalFiles + 1 }

/-- What `scanDirectory` does to one supported file entry, as an outcome
for `applyOutcome`: `none` when the read failed (the inner catch skips
the file) or the detection returned a null language. -/
def fileOutcome (fullPath : String) (content : Option String) :
    Option (SupportedLanguage × List String × List String) :=
  match content with
  | none => none
  | some c =>
    let r := detectLanguage fullPath (some c)
    match r.language with
    | none => none
    | some l => some (l, r.frameworks, r.testFrameworks)

mutual
/-- `scanDirectory`'s handling of one directory entry.  The returned flag
is false when an `fs.readdir` failure is propagating: the recursive call
for a subdirectory is not wrapped in a try, so such a failure aborts the
enclosing loops all the way to the top-level catch.  Per-file read
failures are caught locally and only skip the file. -/
def scanEntry (dirPath : String) (st : ScanState) : FSEntry → ScanState × Bool
  | FSEntry.dir name readable entries =>
    if name ∈ skipDirs then (st, true)
    else if readable then scanList (pathJoin dirPath name) st entries
    else (st, false)
  | FSEntry.file name content =>
    let fullPath := pathJoin dirPath name
    if isSupported fullPath then (applyOutcome st (fileOutcome fullPath content), true)
    else (st, true)

/-- The entry loop of `scanDirectory`: stop at the first propagating
directory failure, otherwise thread the state left to right. -/
def scanList (dirPath : String) (st : ScanState) : List FSEntry → ScanState × Bool
  | [] => (st, true)
  | e :: rest =>
    match scanEntry dirPath st e with
    | (st2, true) => scanList dirPath st2 rest
    | (st2, false) => (st2, false)
end

/-- `BUILD_TOOL_PATTERNS`. -/
def buildToolPatterns : List (String × List String) :=
  [("npm", [("package.json"), ("package-lock.json")]),
   ("yarn", [("yarn.lock"), (".yarnrc")]),
   ("pnpm", [("pnpm-lock.yaml"), (".pnpmfile.cjs")]),
   ("bun", [("bun.lockb"), ("bunfig.toml")]),
   ("pip", [("requirements.txt"), ("setup.py")]),
   ("pipenv", [("Pipfile"), ("Pipfile.lock")]),
   ("poetry", [("pyproject.toml"), ("poetry.lock")]),
   ("maven", [("pom.xml")]),
   ("gradle", [("build.gradle"), ("build.gradle.kts"), ("settings.gradle")]),
   ("gomod", [("go.mod"), ("go.sum")]),
   ("cargo", [("Cargo.toml"), ("Cargo.lock")]),
   ("bundler", [("Gemfile"), ("Gemfile.lock")]),
   ("composer", [("composer.json"), ("composer.lock")]),
   ("nuget", [("packages.config"), ("*.csproj")])]

/-- The tool names categorised as package managers. -/
def packageManagerNames : List String :=
  [("npm"), ("yarn"), ("pnpm"), ("bun"), ("pip"), ("pipenv"), ("poetry"),
   ("bundler"), ("composer")]

/-- The name of a file-system entry. -/
def entryName : FSEntry → String
  | FSEntry.file n _ => n
  | FSEntry.dir n _ _ => n

/-- `fs.access(path.join(projectPath, marker))`: succeeds exactly when the
root listing has an entry of that name; every access fails when the root
cannot be read (per-marker failures are caught and skipped). -/
def markerPresent (root : Option (List FSEntry)) (m : String) : Bool :=
  match root with
  | none => false
  | some es => es.any (fun e => entryName e = m)

/-- The build-tool/package-manager detection loop. -/
def detectPackagesAndTools (root : Option (List FSEntry)) : List String × List String :=
  buildToolPatterns.foldl (fun acc tp =>
    tp.2.foldl (fun acc2 m =>
      if markerPresent root m then
        if tp.1 ∈ packageManagerNames then (addToSet tp.1 acc2.1, acc2.2)
        else (acc2.1, addToSet tp.1 acc2.2)
      else acc2) acc) ([], [])

/-- The `ProjectLanguageInfo` record. -/
structure ProjectLanguageInfo where
  primaryLanguage : Option SupportedLanguage
  languages : List (SupportedLanguage × ℕ)
  frameworks : List String
  packageManagers : List String
  buildTools : List String
  testFrameworks : List String
  totalFiles : ℕ
deriving DecidableEq

/-- The primary-language fold: strict improvement from 0, so ties go to
the first language in map iteration order. -/
def primaryOf (counts : List (SupportedLanguage × ℕ)) : Option SupportedLanguage :=
  (counts.foldl (fun acc lc => if acc.1 < lc.2 then (lc.2, some lc.1) else acc)
    ((0 : ℕ), (none : Option SupportedLanguage))).2

/-- `detectProjectLanguages`.  The whole body sits in a try whose catch
swallows the error, so the promise never rejects: a root whose
`fs.readdir` fails (`root = none`) falls through to the catch and the
accumulated (empty) state is still turned into a profile.  The `Except`
result type records that an async function could reject; this one always
returns `Except.ok`. -/
def detectProjectLanguages (projectPath : String) (root : Option (List FSEntry)) :
    Except String ProjectLanguageInfo :=
  let pmbt := detectPackagesAndTools root
  let stInit : ScanState := ⟨[], [], [], 0⟩
  let st :=
    match root with
    | none => stInit
    | some es => (scanList projectPath stInit es).1
  Except.ok
    { primaryLanguage := primaryOf st.languageCounts
      languages := st.languageCounts
      frameworks := st.allFrameworks
      packageManagers := pmbt.1
      buildTools := pmbt.2
      testFrameworks := st.allTestFrameworks
      totalFiles := st.totalFiles }

/-- The outcome of one scanned supported file. -/
abbrev ScanOutcome := Option (SupportedLanguage × List String × List String)

mutual
/-- Specification-side mirror of `scanEntry`: the list of outcomes of the
supported files the scan actually visits, and the same abort flag. -/
def ghostEntry (dirPath : String) : FSEntry → List ScanOutcome × Bool
  | FSEntry.dir name readable entries =>
    if name ∈ skipDirs then ([], true)
    else if readable then ghostList (pathJoin dirPath name) entries
    else ([], false)
  | FSEntry.file name content =>
    let fullPath := pathJoin dirPath name
    if isSupported fullPath then ([fileOutcome fullPath content], true) else ([], true)

/-- Specification-side mirror of `scanList`. -/
def ghostList (dirPath : String) : List FSEntry → List ScanOutcome × Bool
  | [] => ([], true)
  | e :: rest =>
    match ghostEntry dirPath e with
    | (os, true) => let r := ghostList dirPath rest; (os ++ r.1, r.2)
    | (os, false) => (os, false)
end

/-- The outcomes of the files visited by a whole project scan. -/
def scannedOutcomes (projectPath : String) (root : Option (List FSEntry)) :
    List ScanOutcome :=
  match root with
  | none => []
  | some es => (ghostList projectPath es).1

mutual
/-- `scanEntry` is the fold of `applyOutcome` over the entry's visited
outcomes. -/
theorem scanEntry_eq (p : String) (st : ScanState) (e : FSEntry) :
    scanEntry p st e = (((ghostEntry p e).1).foldl applyOutcome st, (ghostEntry p e).2) := by
  cases e with
  | dir name readable entries =>
    by_cases h : name ∈ skipDirs
    · simp [scanEntry, ghostEntry, h]
    · cases readable with
      | true => simpa [scanEntry, ghostEntry, h] using scanList_eq (pathJoin p name) st entries
      | false => simp [scanEntry, ghostEntry, h]
  | file name content =>
    by_cases h : isSupported (pathJoin p name)
    · simp [scanEntry, ghostEntry, h]
    · simp [scanEntry, ghostEntry, h]

/-- `scanList` is the fold of `applyOutcome` over the visited outcomes. -/
theorem scanList_eq (p : String) (st : ScanState) (es : List FSEntry) :
    scanList p st es = (((ghostList p es).1).foldl applyOutcome st, (ghostList p es).2) := by
  cases es with
  | nil => simp [scanList, ghostList]
  | cons e rest =>
    rw [scanList, scanEntry_eq p st e]
    rcases hg : ghostEntry p e with ⟨os, flag⟩
    cases flag with
    | true =>
      rw [ghostList, hg]
      simpa [List.foldl_append] using scanList_eq p (os.foldl applyOutcome st) rest
    | false => rw [ghostList, hg]
end

/-- `applyOutcome` always increments `totalFiles` by one. -/
theorem totalFiles_foldl (os : List ScanOutcome) (st : ScanState) :
    (os.foldl applyOutcome st).totalFiles = st.totalFiles + os.length := by
  induction os generalizing st with
  | nil => simp
  | cons o rest ih =>
    cases o with
    | none => simp [ih, applyOutcome]; omega
    | some triple => simp [ih, applyOutcome]; omega

/-- Total file count over a language-count map. -/
def sumCounts (c : List (SupportedLanguage × ℕ)) : ℕ :=
  ((c.map (fun e => e.2))).sum

/-- Bumping a language adds exactly one to the total count. -/
theorem sumCounts_bumpLang (l : SupportedLanguage) (c : List (SupportedLanguage × ℕ)) :
    sumCounts (bumpLang l c) = sumCounts c + 1 := by
  induction c with
  | nil => simp [bumpLang, sumCounts]
  | cons e rest ih =>
    by_cases h : e.1 = l
    · simp [bumpLang, h, sumCounts]; omega
    · simp [bumpLang, h, sumCounts] at ih ⊢; omega

/-- The language-count total after a fold counts exactly the successful
outcomes. -/
theorem sumCounts_foldl (os : List ScanOutcome) (st : ScanState) :
    sumCounts ((os.foldl applyOutcome st).languageCounts) =
      sumCounts st.languageCounts + ((os.filterMap id)).length := by
  induction os generalizing st with
  | nil => simp
  | cons o rest ih =>
    cases o with
    | none => simp [ih, applyOutcome]
    | some triple =>
      simp [ih, applyOutcome, sumCounts_bumpLang]
      omega

/-! ## Specification-side definitions, following the spec's wording where
it is compared against the code -/

/-- The spec's per-file score: 100, minus 5 per diagnostic, minus the
complexity band, minus the maintainability band, clamped to [0, 100]
(stated with both penalties as separate closed-form deductions). -/
def specFileScore (diagCount : ℕ) (metrics : Option CodeMetricsQ) : ℚ :=
  let complexityPenalty : ℚ :=
    match metrics with
    | none => 0
    | some m => if 20 < m.complexity then 20 else if 10 < m.complexity then 10 else 0
  let maintainabilityPenalty : ℚ :=
    match metrics with
    | none => 0
    | some m => if m.maintainabilityIndex < 50 then 15
      else if m.maintainabilityIndex < 70 then 5 else 0
  max 0 (min 100 (100 - 5 * (diagCount : ℚ) - complexityPenalty - maintainabilityPenalty))

/-- The spec's overall score: the weighted sum with the documented
constant weights, rounded to the nearest integer. -/
def specOverallScore (a ch m cx tc doc sec : ℚ) : ℤ :=
  jsRound ((30 / 100) * a + (20 / 100) * ch + (15 / 100) * m + (15 / 100) * cx +
    (10 / 100) * tc + (5 / 100) * doc + (5 / 100) * sec)

/-- The spec's technical-debt formula, with each of the two terms floored
at zero separately. -/
def specTechnicalDebt (complexity loc : ℕ) : ℚ :=
  max 0 (5 * ((complexity : ℚ) - 10)) + max 0 ((1 / 10) * ((loc : ℚ) - 200))

/-- The spec's per-pattern contribution for content scoring:
`min(matchCount/10, 1)` where `matchCount` is the number of matches of
the pattern across the whole content, summed and divided by the pattern
count. -/
def specLanguageScore (pats : List (RE × ℕ)) (content : String) : ℚ :=
  ((pats.map (fun p => min ((countMatches p.1 content : ℚ) / 10) 1)).sum) /
    (pats.length : ℚ)

/-! ## Claim C2 -/

/-- C2: for every diagnostics count and optional metrics object, the
per-file score equals 100 minus 5 per diagnostic, minus the mutually
exclusive complexity band (20 over 20 else 10 over 10), minus the
maintainability band (15 under 50 else 5 under 70), clamped to [0, 100];
hence it always lies in [0, 100]. -/
theorem calculateFileScore_spec (d : ℕ) (m : Option CodeMetricsQ) :
    calculateFileScore d m = specFileScore d m ∧
    0 ≤ calculateFileScore d m ∧ calculateFileScore d m ≤ 100 := by
  refine ⟨?_, ?_, ?_⟩
  · cases m with
    | none =>
      simp only [calculateFileScore, specFileScore]
      ring_nf
    | some mm =>
      simp only [calculateFileScore, specFileScore]
      split_ifs <;> ring_nf
  · simp only [calculateFileScore]
    exact le_max_left _ _
  · simp only [calculateFileScore]
    exact max_le (by norm_num) (min_le_left _ _)

/-! ## Claim C3 -/

/-- C3: the reported `overallScore` equals the weighted sum
0.30·avgFileScore + 0.20·codeHealth + 0.15·maintainability +
0.15·complexity + 0.10·testCoverage + 0.05·documentation +
0.05·security rounded to the nearest integer, and the weights sum to
exactly 1. -/
theorem overallScore_weights (a ch m cx tc doc sec : ℚ) :
    overallScoreOf a ch m cx tc doc sec = specOverallScore a ch m cx tc doc sec ∧
    (30 / 100 : ℚ) + 20 / 100 + 15 / 100 + 15 / 100 + 10 / 100 + 5 / 100 + 5 / 100 = 1 := by
  constructor
  · unfold overallScoreOf specOverallScore jsRound
    congr 1
    ring
  · norm_num

/-! ## Claim C4 (corrected) -/

/-- C4 counterexample: at complexity 1 and 300 lines the code returns 0
technical debt (the negative complexity term `-45` offsets the size term
`+10` before the final floor), while the claimed per-term-floored formula
gives 10. -/
theorem calculateTechnicalDebt_counter :
    calculateTechnicalDebt 1 300 = 0 ∧ specTechnicalDebt 1 300 = 10 ∧
    calculateTechnicalDebt 1 300 ≠ specTechnicalDebt 1 300 := by
  have h1 : calculateTechnicalDebt 1 300 = 0 := by
    unfold calculateTechnicalDebt
    rw [max_eq_right (by norm_num : (0 : ℚ) ≤ ((300 : ℕ) : ℚ) - 200)]
    rw [max_eq_left (by norm_num : (((1 : ℕ) : ℚ) - 10) * 5 + (((300 : ℕ) : ℚ) - 200) * (1 / 10) ≤ 0)]
  have h2 : specTechnicalDebt 1 300 = 10 := by
    unfold specTechnicalDebt
    rw [max_eq_left (by norm_num : 5 * (((1 : ℕ) : ℚ) - 10) ≤ 0)]
    rw [max_eq_right (by norm_num : (0 : ℚ) ≤ (1 / 10) * (((300 : ℕ) : ℚ) - 200))]
    norm_num
  refine ⟨h1, h2, ?_⟩
  rw [h1, h2]
  norm_num

/-- C4 amended: `calculateTechnicalDebt` returns
`max(0, 5*(complexity-10) + max(0, 0.1*(loc-200)))` — the size term is
floored separately but the complexity term is not, so complexity below 10
offsets size debt; the result is zero exactly when that inner sum is not
positive. -/
theorem calculateTechnicalDebt_formula (complexity loc : ℕ) :
    calculateTechnicalDebt complexity loc =
      max 0 (5 * ((complexity : ℚ) - 10) + max 0 ((1 / 10) * ((loc : ℚ) - 200))) ∧
    (calculateTechnicalDebt complexity loc = 0 ↔
      5 * ((complexity : ℚ) - 10) + max 0 ((1 / 10) * ((loc : ℚ) - 200)) ≤ 0) := by
  have hmul : max 0 ((loc : ℚ) - 200) * (1 / 10) = max 0 ((1 / 10) * ((loc : ℚ) - 200)) := by
    rw [max_mul_of_nonneg _ _ (by norm_num : (0 : ℚ) ≤ 1 / 10)]
    ring_nf
  have h1 : calculateTechnicalDebt complexity loc =
      max 0 (5 * ((complexity : ℚ) - 10) + max 0 ((1 / 10) * ((loc : ℚ) - 200))) := by
    unfold calculateTechnicalDebt
    rw [hmul]
    ring_nf
  refine ⟨h1, ?_⟩
  rw [h1]
  exact max_eq_left_iff

/-! ## Claim C1 (code bug) -/

/-- A TypeScript file consisting of fifteen `if` statements. -/
def fifteenIfs : String := String.join (List.replicate 15 ("if (a > b) c = d;\n"))

/-- A correctly-escaped `\bif\b` regex, for contrast: it counts the
fifteen `if` keywords of `fifteenIfs`. -/
def keywordIfRE : RE := cat [RE.wb, lits ("if"), RE.wb]

set_option maxRecDepth 40000 in
/-- C1 (code bug): on a TypeScript file with fifteen `if` statements the
code returns complexity 1, not 16: its double-escaped patterns match the
literal texts `\bif\b`, `\belse\b`, ..., which the file does not contain,
while a correctly-escaped `\bif\b` finds all fifteen keywords. -/
theorem calculateComplexity_fifteen_ifs :
    calculateComplexity fifteenIfs SupportedLanguage.typescript = 1 ∧
    countMatches keywordIfRE fifteenIfs = 15 := by
  constructor <;> decide

/-! ## Claim C7 (corrected) -/

/-- The spec's maintainability formula
`clamp(100 - 2*complexity - 5*ln(loc) + 10*(commentLines/loc), 0, 100)`
read over the reals. -/
noncomputable def specMaintainabilityIndex (loc complexity commentLines : ℕ) : ℝ :=
  max 0 (min 100 (100 - 2 * (complexity : ℝ) - 5 * Real.log loc +
    10 * ((commentLines : ℝ) / (loc : ℝ))))

/-- C7 counterexample: at zero non-empty lines the comment ratio is `0/0`
and the size penalty is `log(0) * 5`, so the index is `NaN` — not the
claimed clamped real value (for any real, in particular not the formula's
junk-value reading). -/
theorem calculateMaintainabilityIndex_nan :
    calculateMaintainabilityIndex 0 1 0 = JSReal.nan ∧
    calculateMaintainabilityIndex 0 1 0 ≠ JSReal.fin (specMaintainabilityIndex 0 1 0) := by
  have h1 : calculateMaintainabilityIndex 0 1 0 = JSReal.nan := rfl
  refine ⟨h1, ?_⟩
  rw [h1]
  exact fun h => JSReal.noConfusion h

/-- C7 amended: for every file with at least one non-empty line the
maintainability index is exactly the clamped formula value and lies in
[0, 100]; the `loc = 0` case instead yields `NaN`. -/
theorem calculateMaintainabilityIndex_formula (loc complexity commentLines : ℕ)
    (h : 1 ≤ loc) :
    calculateMaintainabilityIndex loc complexity commentLines =
      JSReal.fin (specMaintainabilityIndex loc complexity commentLines) ∧
    0 ≤ specMaintainabilityIndex loc complexity commentLines ∧
    specMaintainabilityIndex loc complexity commentLines ≤ 100 := by
  have hloc : loc ≠ 0 := by omega
  refine ⟨?_, ?_, ?_⟩
  · unfold calculateMaintainabilityIndex specMaintainabilityIndex jsDivNat jsLogNat
    simp only [hloc, if_false, JSReal.mulPos, JSReal.sub, JSReal.add, JSReal.jsMin,
      JSReal.jsMax]
    congr 1
    ring_nf
  · exact le_max_left _ _
  · exact max_le (by norm_num) (min_le_left _ _)

/-- C7 witness: a one-line file with complexity 1 and no comments has
index `clamp(100 - 2 - 5*ln 1 + 0) = 98`. -/
theorem calculateMaintainabilityIndex_formula_witness :
    calculateMaintainabilityIndex 1 1 0 = JSReal.fin 98 ∧ (0 : ℝ) ≤ 98 ∧ (98 : ℝ) ≤ 100 := by
  have h := calculateMaintainabilityIndex_formula 1 1 0 (by norm_num)
  have hval : specMaintainabilityIndex 1 1 0 = 98 := by
    unfold specMaintainabilityIndex
    rw [Nat.cast_one, Real.log_one]
    rw [min_eq_right (by norm_num), max_eq_right (by norm_num)]
    norm_num
  refine ⟨?_, by norm_num, by norm_num⟩
  rw [h.1, hval]

/-! ## Claim C9 (corrected) -/

/-- The total diagnostic count accumulated over the analysed files. -/
def totalIssuesOf (files : List FileAnalysis) (maxFiles : ℕ) : ℕ :=
  ((((files.take maxFiles).filterMap (fun f => f.result.map (fun r => r.1))))).sum

/-- C9 counterexample: with zero discovered files the quality analysis
throws `AnalysisError("No supported files found for analysis")` instead
of returning an empty/zero report. -/
theorem analyzeQuality_empty_throws :
    analyzeQualityCore [] 50 50 0 100 [] =
      Except.error ("No supported files found for analysis") := rfl

/-- C9 amended: `analyzeQuality` succeeds exactly when at least one file
was discovered, throwing on an empty list before any score is computed;
consequently `codeHealth` is only ever computed with a positive
denominator `files.length`, so no division by zero reaches it. -/
theorem analyzeQuality_empty_guard (files : List FileAnalysis) (maxFiles : ℕ)
    (tc doc sec : ℚ) (recs : List String) :
    ((analyzeQualityCore files maxFiles tc doc sec recs).isOk = true ↔ files ≠ []) ∧
    (∀ r, analyzeQualityCore files maxFiles tc doc sec recs = Except.ok r →
      0 < files.length ∧
      r.codeHealth =
        max 0 (100 - ((totalIssuesOf files maxFiles : ℚ) / (files.length : ℚ)) * 10)) := by
  constructor
  · by_cases h : files = []
    · subst h
      simp [analyzeQualityCore, Except.isOk, Except.toBool]
    · have hlen : ¬files.length = 0 := fun hh => h (List.length_eq_zero.mp hh)
      simp [analyzeQualityCore, hlen, Except.isOk, Except.toBool, h]
  · intro r hr
    by_cases h : files = []
    · subst h
      simp [analyzeQualityCore] at hr
    · have hlen : ¬files.length = 0 := fun hh => h (List.length_eq_zero.mp hh)
      refine ⟨Nat.pos_of_ne_zero hlen, ?_⟩
      simp only [analyzeQualityCore, hlen, if_false] at hr
      cases hr
      simp only [totalIssuesOf, List.map_filterMap, Option.map_map]
      rfl

/-- C9 witness: the empty list is rejected, and a singleton list with two
diagnostics yields a report whose `codeHealth` is `100 - (2/1)*10 = 80`. -/
theorem analyzeQuality_empty_guard_witness :
    (analyzeQualityCore [] 50 50 0 100 []).isOk = false ∧
    (∃ r, analyzeQualityCore [⟨("f.ts"), some (2, none)⟩] 50 50 0 100 [] = Except.ok r ∧
      r.codeHealth = 80) := by
  constructor
  · have h := (analyzeQuality_empty_guard [] 50 50 0 100 []).1
    cases hb : (analyzeQualityCore ([] : List FileAnalysis) 50 50 0 100 []).isOk with
    | false => rfl
    | true => exact absurd (h.mp hb) (by simp)
  · have h := analyzeQuality_empty_guard [⟨("f.ts"), some (2, none)⟩] 50 50 0 100 []
    have hok := h.1.mpr (by simp)
    cases hcore : analyzeQualityCore [⟨("f.ts"), some (2, none)⟩] 50 50 0 100 [] with
    | error e => rw [hcore] at hok; simp [Except.isOk, Except.toBool] at hok
    | ok r =>
      refine ⟨r, rfl, ?_⟩
      have hch := (h.2 r hcore).2
      have hti : totalIssuesOf [⟨("f.ts"), some (2, none)⟩] 50 = 2 := rfl
      rw [hch, hti]
      rw [max_eq_right (by norm_num)]
      norm_num

/-! ## Claim C8 (corrected) -/

/-- The profile returned when nothing was scanned. -/
def emptyProfile : ProjectLanguageInfo := ⟨none, [], [], [], [], [], 0⟩

/-- C8 counterexample: a root whose directory read fails yields a
successful empty profile, not an error (the catch-all swallows the
exception); and a failing subdirectory read aborts the rest of the scan,
so the readable `b.py` that follows it is never counted (the claimed
skip-and-continue behaviour would give `totalFiles = 1`). -/
theorem detectProjectLanguages_counter :
    detectProjectLanguages ("p") none = Except.ok emptyProfile ∧
    detectProjectLanguages ("p")
        (some [FSEntry.dir ("sub") false [], FSEntry.file ("b.py") (some ("x=1"))]) =
      Except.ok emptyProfile := by
  exact ⟨rfl, rfl⟩

/-- C8 amended: `detectProjectLanguages` never raises — every I/O failure
is swallowed.  A top-level read failure yields the empty profile; a
per-file read failure only skips that file (it is still counted in
`totalFiles`) and the scan continues with the remaining entries; only a
directory read failure aborts the remainder of the walk (its error is
then swallowed at the top level). -/
theorem detectProjectLanguages_never_raises :
    (∀ (p : String) (root : Option (List FSEntry)),
      (detectProjectLanguages p root).isOk = true) ∧
    (∀ p : String, detectProjectLanguages p none = Except.ok emptyProfile) ∧
    (∀ (p : String) (st : ScanState) (name : String) (rest : List FSEntry),
      scanList p st (FSEntry.file name none :: rest) =
        scanList p
          (if isSupported (pathJoin p name) then
            { st with totalFiles := st.totalFiles + 1 } else st) rest) := by
  refine ⟨?_, ?_, ?_⟩
  · intro p root
    simp [detectProjectLanguages, Except.isOk, Except.toBool]
  · intro p
    rfl
  · intro p st name rest
    by_cases h : isSupported (pathJoin p name)
    · simp [scanList, scanEntry, h, fileOutcome, applyOutcome]
    · simp [scanList, scanEntry, h]

/-! ## Claim C10 -/

/-- Counting the successful outcomes of a list is bounded by its length,
with equality exactly when no outcome is `none`. -/
theorem filterMap_id_length (os : List ScanOutcome) :
    ((os.filterMap id)).length ≤ os.length ∧
    (((os.filterMap id)).length = os.length ↔ ∀ o ∈ os, o ≠ none) := by
  induction os with
  | nil => simp
  | cons o rest ih =>
    cases o with
    | none =>
      refine ⟨by simpa using Nat.le_succ_of_le ih.1, ?_⟩
      simp only [List.filterMap_cons, id]
      constructor
      · intro hlen
        exact absurd hlen (by have := ih.1; simp; omega)
      · intro hall
        exact absurd rfl (hall none (List.mem_cons_self _ _))
    | some v =>
      refine ⟨by simpa using ih.1, ?_⟩
      simp only [List.filterMap_cons, id]
      simp only [List.length_cons, Nat.succ_inj]
      constructor
      · intro hlen
        simpa using ih.2.mp hlen
      · intro hall
        exact ih.2.mpr (by simpa using hall)

/-- C10: in every profile produced by a project scan, the language counts
sum to at most `totalFiles`, with equality exactly when every scanned
supported file yielded a (non-null) detected language; a scanned file
whose read fails or whose detection is null is counted in `totalFiles`
but in no entry of `languages`. -/
theorem detectProjectLanguages_counts (p : String) (root : Option (List FSEntry))
    (prof : ProjectLanguageInfo) (h : detectProjectLanguages p root = Except.ok prof) :
    sumCounts prof.languages ≤ prof.totalFiles ∧
    (sumCounts prof.languages = prof.totalFiles ↔
      ∀ o ∈ scannedOutcomes p root, o ≠ none) := by
  cases root with
  | none =>
    cases h
    simp [scannedOutcomes, sumCounts]
  | some es =>
    cases h
    simp only [scanList_eq, totalFiles_foldl, sumCounts_foldl, scannedOutcomes]
    have hfm := filterMap_id_length ((ghostList p es)).1
    simpa [sumCounts] using hfm

/-- C10 witness: a project containing one unreadable supported file has
`totalFiles = 1` and an empty language map — the sum 0 is at most 1, and
the equality characterisation fails as some scanned outcome is `none`. -/
theorem detectProjectLanguages_counts_witness :
    sumCounts (([]) : List (SupportedLanguage × ℕ)) ≤ 1 ∧
    (sumCounts (([]) : List (SupportedLanguage × ℕ)) = 1 ↔
      ∀ o ∈ scannedOutcomes ("p") (some [FSEntry.file ("b.py") none]), o ≠ none) :=
  detectProjectLanguages_counts ("p") (some [FSEntry.file ("b.py") none])
    ⟨none, [], [], [], [], [], 1⟩ (by rfl)

/-! ## Claim C5 (code bug) -/

/-- Content in which the python pattern `/\bself\./` matches five times. -/
def fiveSelfs : String := "self.self.self.self.self."

set_option maxRecDepth 8000 in
/-- C5 (code bug): the scoring loop calls `content.match(pattern)` on
patterns without the global flag, so `matchCount` is the single-match
array length (1, the pattern has no capture groups) no matter how often
the pattern occurs.  On content where `/\bself\./` matches five times the
code's python raw score is `(1/10)/12 = 1/120`, while the claimed
count-based formula gives `min(5/10, 1)/12 = 1/24`. -/
theorem contentScoring_matchCount_bug :
    languagePatterns.lookup SupportedLanguage.python = some pythonLangPats ∧
    languageScore pythonLangPats fiveSelfs = 1 / 120 ∧
    specLanguageScore pythonLangPats fiveSelfs = 1 / 24 ∧
    countMatches (cat [RE.wb, lits ("self.")]) fiveSelfs = 5 ∧
    ((1 : ℚ) / 120) ≠ 1 / 24 := by
  have e1 : countMatches (cat [lits ("def"), sp1, w1, sp0, RE.lit ('(')]) fiveSelfs = 0 := by
    decide
  have e2 : countMatches (cat [lits ("class"), sp1, w1]) fiveSelfs = 0 := by decide
  have e3 : countMatches (cat [lits ("import"), sp1, w1]) fiveSelfs = 0 := by decide
  have e4 : countMatches (cat [lits ("from"), sp1, w1, sp1, lits ("import")]) fiveSelfs = 0 := by
    decide
  have e5 : countMatches (cat [lits ("__init__"), sp0, RE.lit ('(')]) fiveSelfs = 0 := by decide
  have e6 : countMatches (cat [lits ("if"), sp1, lits ("__name__"), sp0, lits ("=="), sp0,
      RE.cls quoteCls, lits ("__main__"), RE.cls quoteCls]) fiveSelfs = 0 := by decide
  have e7 : countMatches (cat [RE.wb, lits ("self.")]) fiveSelfs = 5 := by decide
  have e8 : countMatches (cat [RE.lit ('@'), w1, RE.star (RE.cls pyDecoSpaceCls), RE.lit ('\n'),
      sp0, lits ("def")]) fiveSelfs = 0 := by decide
  have e9 : countMatches (cat [RE.wb, lits ("print"), sp0, RE.lit ('(')]) fiveSelfs = 0 := by
    decide
  have e10 : countMatches (cat [RE.wb, lits ("lambda"), sp1]) fiveSelfs = 0 := by decide
  have e11 : countMatches (cat [RE.wb, lits ("await"), sp1]) fiveSelfs = 0 := by decide
  have e12 : countMatches (cat [RE.wb, lits ("async"), sp1, lits ("def")]) fiveSelfs = 0 := by
    decide
  refine ⟨by rfl, ?_, ?_, e7, by norm_num⟩
  · simp +decide [pythonLangPats, languageScore, patContribution, patMatchLen, contribOfLen]
    norm_num
  · simp +decide [pythonLangPats, specLanguageScore, e1, e2, e3, e4, e5, e6, e7,
      e8, e9, e10, e11, e12]
    norm_num

/-! ## Claim C6 -/

/-- The running maximum of the score fold never drops below its
non-negative start. -/
theorem maxScorePair_nonneg (scores : List (SupportedLanguage × ℚ)) :
    0 ≤ (maxScorePair scores).1 := by
  have key : ∀ (l : List (SupportedLanguage × ℚ)) (acc : ℚ × Option SupportedLanguage),
      0 ≤ acc.1 →
      0 ≤ (l.foldl (fun acc ls => if acc.1 < ls.2 then (ls.2, some ls.1) else acc) acc).1 := by
    intro l
    induction l with
    | nil => intro acc h; simpa using h
    | cons x rest ih =>
      intro acc h
      simp only [List.foldl_cons]
      by_cases hx : acc.1 < x.2
      · rw [if_pos hx]
        exact ih _ (le_of_lt (lt_of_le_of_lt h hx))
      · rw [if_neg hx]
        exact ih _ h
  exact key scores (0, none) le_rfl

/-- Content-only confidence is always within `[0, 0.99]`. -/
theorem detectByContent_confidence_bounds (content filePath : String) :
    0 ≤ (detectByContent content filePath).confidence ∧
    (detectByContent content filePath).confidence ≤ 99 / 100 := by
  have h0 : 0 ≤ (maxScorePair (contentScores content)).1 := maxScorePair_nonneg _
  rcases hms : (maxScorePair (contentScores content)).2 with _ | detected
  · simp only [detectByContent, hms]
    norm_num
  · simp only [detectByContent, hms]
    set c0 := min ((maxScorePair (contentScores content)).1 * (8 / 10)) (95 / 100) with hc0
    have hc0n : 0 ≤ c0 := le_min (mul_nonneg h0 (by norm_num)) (by norm_num)
    have hc0u : c0 ≤ 99 / 100 := le_trans (min_le_right _ _) (by norm_num)
    split_ifs
    · exact ⟨le_min (by linarith) (by norm_num), min_le_right _ _⟩
    · exact ⟨hc0n, hc0u⟩

/-- The minimum-confidence gate of `detectByContent`: a confidence that
ends below 0.3 forces a null language. -/
theorem detectByContent_gate (content filePath : String)
    (h : (detectByContent content filePath).confidence < 3 / 10) :
    (detectByContent content filePath).language = none := by
  have hlang : (detectByContent content filePath).language =
      if 3 / 10 < (detectByContent content filePath).confidence then
        (maxScorePair (contentScores content)).2
      else none := rfl
  rw [hlang, if_neg (lt_asymm h)]

/-- With no extension match, `detectLanguage` adopts the content
detection's language, and its confidence is 0 (nothing detected) or the
content confidence. -/
theorem detectLanguage_of_ext_none (filePath : String) (content : Option String)
    (hext : lookupExt (toLowerAscii (extname filePath)) = none) :
    (detectLanguage filePath content).language =
      (detectByContent (content.getD ("")) filePath).language ∧
    ((detectLanguage filePath content).confidence = 0 ∨
      (detectLanguage filePath content).confidence =
        (detectByContent (content.getD ("")) filePath).confidence) := by
  simp only [detectLanguage, hext, Option.isNone_none, Bool.true_or, if_true,
    Option.isSome_none, Bool.false_eq_true, if_false]
  rcases hcr : (detectByContent (content.getD ("")) filePath).language with _ | cl
  · exact ⟨rfl, Or.inl rfl⟩
  · exact ⟨rfl, Or.inr rfl⟩

/-- With an extension match, `detectLanguage` keeps the extension's
language, and its confidence is 0.8 or the boosted `min 1 (0.8 + 0.2)`. -/
theorem detectLanguage_of_ext_some (filePath : String) (content : Option String)
    (l : SupportedLanguage) (hext : lookupExt (toLowerAscii (extname filePath)) = some l) :
    (detectLanguage filePath content).language = some l ∧
    ((detectLanguage filePath content).confidence = 8 / 10 ∨
      (detectLanguage filePath content).confidence = min 1 (8 / 10 + 2 / 10)) := by
  simp only [detectLanguage, hext, Option.isNone_some, Bool.false_or, Option.isSome_some,
    if_true]
  cases htr : contentTruthy content with
  | false => simp
  | true =>
    rcases hcr : (detectByContent (content.getD ("")) filePath).language with _ | cl
    · simp [hcr]
    · by_cases hlc : l = cl
      · simp [hcr, hlc]
      · simp [hcr, hlc]

/-- C6: for every path and content, `detectLanguage`'s confidence lies in
[0, 1]; when the extension lookup fails (content-only detection) it never
exceeds 0.99; a content detection whose confidence is below 0.3 yields a
null language; and an extension-based detection is never discarded — its
language survives in the result. -/
theorem detectLanguage_confidence_props (filePath : String) (content : Option String) :
    (0 ≤ (detectLanguage filePath content).confidence ∧
      (detectLanguage filePath content).confidence ≤ 1) ∧
    (lookupExt (toLowerAscii (extname filePath)) = none →
      (detectLanguage filePath content).confidence ≤ 99 / 100) ∧
    (∀ c2 p2 : String, (detectByContent c2 p2).confidence < 3 / 10 →
      (detectByContent c2 p2).language = none) ∧
    (∀ l : SupportedLanguage, lookupExt (toLowerAscii (extname filePath)) = some l →
      (detectLanguage filePath content).language = some l) := by
  have hdb := detectByContent_confidence_bounds (content.getD ("")) filePath
  refine ⟨?_, fun hnone => ?_, fun c2 p2 h => detectByContent_gate c2 p2 h, fun l hl => ?_⟩
  · rcases hext : lookupExt (toLowerAscii (extname filePath)) with _ | l
    · rcases (detectLanguage_of_ext_none filePath content hext).2 with hc | hc <;> rw [hc]
      · norm_num
      · exact ⟨hdb.1, le_trans hdb.2 (by norm_num)⟩
    · rcases (detectLanguage_of_ext_some filePath content l hext).2 with hc | hc <;> rw [hc] <;>
        norm_num
  · rcases (detectLanguage_of_ext_none filePath content hnone).2 with hc | hc <;> rw [hc]
    · norm_num
    · exact hdb.2
  · exact (detectLanguage_of_ext_some filePath content l hl).1

/-- C6 witness: a path with an unknown extension stays below the
content-only cap; a `.py` path keeps its extension language; and empty
content on an unknown extension has confidence 0 < 0.3, hence a null
language. -/
theorem detectLanguage_confidence_props_witness :
    (detectLanguage ("a.xyz") (some (""))).confidence ≤ 99 / 100 ∧
    (detectLanguage ("a.py") (some ("x=1"))).language = some SupportedLanguage.python ∧
    (detectByContent ("") ("a.xyz")).language = none := by
  refine ⟨(detectLanguage_confidence_props ("a.xyz") (some (""))).2.1 (by decide),
    (detectLanguage_confidence_props ("a.py") (some ("x=1"))).2.2.2 SupportedLanguage.python
      (by decide),
    (detectLanguage_confidence_props ("a.py") (some (""))).2.2.1 ("") ("a.xyz") ?_⟩
  have h0 : (detectByContent ("") ("a.xyz")).confidence = 0 := by
    simp +decide [detectByContent, contentScores, languagePatterns, pythonLangPats,
      languageScore, patContribution, patMatchLen, contribOfLen, maxScorePair]
  rw [h0]
  norm_num

end Cyrus
